import Mathlib

/-!
Shallow embedding of three PyRTL pipeline designs:

* `PALU`   — `src/pipelined-alu.py`: a fetch/decode/execute pipelined ALU
  with a program counter, instruction memory, a 16-entry register file,
  stall input, forwarding and branch squash.
* `PALU3`  — `src/pipelined-alu-3stg.py`: a 3-stage ALU pipeline whose
  "fetch" is an external 16-bit instruction input.
* `PCount` — `src/counter.py`: a 2-stage pipelined counter.

Registers hold natural numbers; every arithmetic result is reduced
modulo `2 ^ width` exactly where the hardware truncates.  Each design is
a step function from current state (plus that cycle's external inputs)
to next state: all right-hand sides read only the pre-cycle state,
mirroring PyRTL's synchronous update semantics (registers latch `.next`
at the cycle boundary; memory writes commit at the cycle boundary;
asynchronous memory reads see the pre-write contents).
-/

/-- Bit slice `x[lo:hi]` (little-endian, `hi` exclusive), as in PyRTL. -/
def slc (x lo hi : Nat) : Nat := x / 2 ^ lo % 2 ^ (hi - lo)

namespace PALU

/-- State of `pipelined-alu.py`: the program counter, the pipeline
registers and the register file.  `imem` is the (read-only) instruction
memory, passed as a parameter of the step function. -/
@[ext]
structure State where
  pc : Nat
  d_inst : Nat
  d_pc : Nat
  x_rd : Nat
  x_ctrl_alu_op : Nat
  x_ctrl_branch : Bool
  x_ctrl_write : Bool
  x_alu_in1 : Nat
  x_alu_in2 : Nat
  rf : Nat → Nat

/-- Opcode encoding (class `OP`): NOP 0, ADD 1, SUB 2, XOR 3, AND 4,
OR 5, JUMP 6. -/
def aluResult (S : State) : Nat :=
  if S.x_ctrl_alu_op = 1 then (S.x_alu_in1 + S.x_alu_in2) % 2 ^ 16
  else if S.x_ctrl_alu_op = 2 then
    (S.x_alu_in1 + (2 ^ 16 - S.x_alu_in2 % 2 ^ 16)) % 2 ^ 16
  else if S.x_ctrl_alu_op = 3 then S.x_alu_in1 ^^^ S.x_alu_in2
  else if S.x_ctrl_alu_op = 5 then S.x_alu_in1 ||| S.x_alu_in2
  else if S.x_ctrl_alu_op = 4 then S.x_alu_in1 &&& S.x_alu_in2
  else 0

/-- `branch_taken <<= x_ctrl_branch`. -/
def branchTaken (S : State) : Bool := S.x_ctrl_branch

/-- `branch_target <<= alu_result`. -/
def branchTarget (S : State) : Nat := aluResult S

/-- `nop <<= branch_taken | stall`. -/
def nop (stall : Bool) (S : State) : Bool := branchTaken S || stall

/-- `inst_a = mux(nop, d_inst[0:4], 0)`. -/
def inst_a (stall : Bool) (S : State) : Nat :=
  if nop stall S then 0 else slc S.d_inst 0 4

/-- `inst_b = mux(nop, d_inst[4:8], 0)`. -/
def inst_b (stall : Bool) (S : State) : Nat :=
  if nop stall S then 0 else slc S.d_inst 4 8

/-- `inst_c = mux(nop, d_inst[8:12], 0)`. -/
def inst_c (stall : Bool) (S : State) : Nat :=
  if nop stall S then 0 else slc S.d_inst 8 12

/-- `inst_op = mux(nop, d_inst[12:16], OP.ADD)`. -/
def inst_op (stall : Bool) (S : State) : Nat :=
  if nop stall S then 1 else slc S.d_inst 12 16

/-- `inst_imm = d_inst[0:12].zero_extended(WIDTH)`. -/
def inst_imm (S : State) : Nat := S.d_inst % 2 ^ 12

/-- `ctrl_branch = enum_mux(inst_op, {JUMP: 1}, default=0)`. -/
def ctrl_branch (stall : Bool) (S : State) : Bool :=
  decide (inst_op stall S = 6)

/-- `ctrl_alu_op = enum_mux(inst_op, {JUMP: ADD}, default=inst_op)`. -/
def ctrl_alu_op (stall : Bool) (S : State) : Nat :=
  if inst_op stall S = 6 then 1 else inst_op stall S

/-- `ctrl_write = enum_mux(inst_op, {ADD,SUB,XOR,OR,AND: 1}, default=0)`. -/
def ctrl_write (stall : Bool) (S : State) : Bool :=
  decide (inst_op stall S = 1 ∨ inst_op stall S = 2 ∨ inst_op stall S = 3 ∨
    inst_op stall S = 5 ∨ inst_op stall S = 4)

/-- `reg_write_enable <<= x_ctrl_write & (x_rd != 0)`. -/
def reg_write_enable (S : State) : Bool :=
  S.x_ctrl_write && decide (S.x_rd ≠ 0)

/-- One synchronous cycle of `pipelined-alu.py`, given the instruction
memory `imem` and this cycle's `stall` input. -/
def step (imem : Nat → Nat) (S : State) (stall : Bool) : State where
  pc :=
    if stall then S.pc
    else if branchTaken S then branchTarget S
    else (S.pc + 1) % 2 ^ 16
  d_inst := if branchTaken S then 0x1000 else imem S.pc
  d_pc := S.pc
  x_rd := inst_c stall S
  x_ctrl_alu_op := ctrl_alu_op stall S
  x_ctrl_branch := ctrl_branch stall S
  x_ctrl_write := ctrl_write stall S
  x_alu_in1 :=
    if ctrl_branch stall S then S.d_pc
    else if S.x_rd = inst_a stall S ∧ inst_a stall S ≠ 0 then aluResult S
    else S.rf (inst_a stall S)
  x_alu_in2 :=
    if ctrl_branch stall S then inst_imm S
    else if S.x_rd = inst_b stall S ∧ inst_b stall S ≠ 0 then aluResult S
    else S.rf (inst_b stall S)
  rf :=
    if reg_write_enable S then Function.update S.rf S.x_rd (aluResult S)
    else S.rf

/-- Trace of committed states for a list of per-cycle `stall` inputs. -/
def run (imem : Nat → Nat) (S : State) : List Bool → List State
  | [] => []
  | s :: rest => step imem S s :: run imem (step imem S s) rest

/-- Well-formedness: every register holds a value below `2 ^ width`. -/
def WF (S : State) : Prop :=
  S.pc < 2 ^ 16 ∧ S.d_inst < 2 ^ 16 ∧ S.d_pc < 2 ^ 16 ∧
  S.x_rd < 2 ^ 4 ∧ S.x_ctrl_alu_op < 2 ^ 4 ∧
  S.x_alu_in1 < 2 ^ 16 ∧ S.x_alu_in2 < 2 ^ 16 ∧ ∀ a, S.rf a < 2 ^ 16

end PALU

namespace PALU3

/-- State of `pipelined-alu-3stg.py`: ALU input/output registers, the
pipeline registers carrying the destination address and write enable,
and the register file.  The 16-bit instruction and the stall bit are
external inputs supplied each cycle. -/
@[ext]
structure State where
  in1 : Nat
  in2 : Nat
  out : Nat
  c_addr_1 : Nat
  c_addr_2 : Nat
  op_1 : Nat
  write_1 : Bool
  write_2 : Bool
  rf : Nat → Nat

/-- Opcode encoding (class `ALUOp`): ADD 0, SUB 1, XOR 2, AND 3, OR 4. -/
def aluResult (S : State) : Nat :=
  if S.op_1 = 0 then (S.in1 + S.in2) % 2 ^ 16
  else if S.op_1 = 1 then (S.in1 + (2 ^ 16 - S.in2 % 2 ^ 16)) % 2 ^ 16
  else if S.op_1 = 2 then S.in1 ^^^ S.in2
  else if S.op_1 = 4 then S.in1 ||| S.in2
  else if S.op_1 = 3 then S.in1 &&& S.in2
  else 0

/-- One synchronous cycle of `pipelined-alu-3stg.py`, given this
cycle's `stall` and `inst` inputs. -/
def step (S : State) (stall : Bool) (inst : Nat) : State where
  in1 :=
    if stall then 0
    else if S.c_addr_1 = slc inst 0 4 then aluResult S
    else if S.c_addr_2 = slc inst 0 4 then S.out
    else S.rf (slc inst 0 4)
  in2 :=
    if stall then 0
    else if S.c_addr_1 = slc inst 4 8 then aluResult S
    else if S.c_addr_2 = slc inst 4 8 then S.out
    else S.rf (slc inst 4 8)
  out := aluResult S
  c_addr_1 := if stall then 0 else slc inst 8 12
  c_addr_2 := S.c_addr_1
  op_1 := slc inst 12 16
  write_1 := if stall then false else true
  write_2 := S.write_1
  rf := if S.write_2 then Function.update S.rf S.c_addr_2 S.out else S.rf

/-- Trace of committed states for a list of per-cycle
`(stall, inst)` inputs. -/
def run (S : State) : List (Bool × Nat) → List State
  | [] => []
  | (s, i) :: rest => step S s i :: run (step S s i) rest

/-- Well-formedness: every register holds a value below `2 ^ width`. -/
def WF (S : State) : Prop :=
  S.in1 < 2 ^ 16 ∧ S.in2 < 2 ^ 16 ∧ S.out < 2 ^ 16 ∧
  S.c_addr_1 < 2 ^ 4 ∧ S.c_addr_2 < 2 ^ 4 ∧ S.op_1 < 2 ^ 4 ∧
  ∀ a, S.rf a < 2 ^ 16

end PALU3

namespace PCount

/-- State of `counter.py`: the program counter, the data counter and
the two pipeline registers; `imem` is a parameter of the step
function.  There are no external inputs (the stall input is commented
out in the source). -/
@[ext]
structure State where
  pc : Nat
  counter : Nat
  d_inst : Nat
  d_pc : Nat

/-- `inst_op <<= d_inst[WIDTH-2:WIDTH]` with `WIDTH = 8`.
Opcode encoding (class `OP`): NOP 0, INC 1, DEC 2, JUMP 3. -/
def inst_op (S : State) : Nat := slc S.d_inst 6 8

/-- `inst_imm <<= d_inst[0:WIDTH-2].sign_extended(WIDTH)`: the low six
bits with bit 5 replicated into bits 6 and 7. -/
def inst_imm (S : State) : Nat :=
  if 2 ^ 5 ≤ S.d_inst % 2 ^ 6 then S.d_inst % 2 ^ 6 + 0xC0
  else S.d_inst % 2 ^ 6

/-- `enum_mux(inst_op, {INC: counter+1, DEC: counter-1,
JUMP: d_pc+inst_imm}, default=0)`. -/
def aluResult (S : State) : Nat :=
  if inst_op S = 1 then (S.counter + 1) % 2 ^ 8
  else if inst_op S = 2 then (S.counter + (2 ^ 8 - 1)) % 2 ^ 8
  else if inst_op S = 3 then (S.d_pc + inst_imm S) % 2 ^ 8
  else 0

/-- `branch_taken |= 1` under `inst_op == OP.JUMP`; a conditional wire
defaults to 0 when no branch fires. -/
def branch_taken (S : State) : Bool := decide (inst_op S = 3)

/-- `branch_target |= alu_result` under the same condition; 0 otherwise. -/
def branch_target (S : State) : Nat :=
  if branch_taken S then aluResult S else 0

/-- One synchronous cycle of `counter.py` given the instruction memory.
`counter.next` is assigned only under
`(inst_op != JUMP) & (inst_op != NOP)`; a register not assigned by any
branch of a PyRTL conditional assignment holds its current value. -/
def step (imem : Nat → Nat) (S : State) : State where
  pc := if branch_taken S then branch_target S else (S.pc + 1) % 2 ^ 8
  d_inst := if branch_taken S then 0 else imem S.pc
  d_pc := S.pc
  counter :=
    if inst_op S ≠ 3 ∧ inst_op S ≠ 0 then aluResult S else S.counter

/-- Trace of committed states for a given number of cycles. -/
def run (imem : Nat → Nat) (S : State) : Nat → List State
  | 0 => []
  | n + 1 => step imem S :: run imem (step imem S) n

/-- Well-formedness: every register holds a value below `2 ^ 8`. -/
def WF (S : State) : Prop :=
  S.pc < 2 ^ 8 ∧ S.counter < 2 ^ 8 ∧ S.d_inst < 2 ^ 8 ∧ S.d_pc < 2 ^ 8

end PCount

/-! ### General lemmas about the embeddings -/

theorem slc_lt (x lo hi : Nat) : slc x lo hi < 2 ^ (hi - lo) :=
  Nat.mod_lt _ (Nat.two_pow_pos _)

theorem PALU.aluResultBound {S : PALU.State} (h1 : S.x_alu_in1 < 2 ^ 16)
    (h2 : S.x_alu_in2 < 2 ^ 16) : PALU.aluResult S < 2 ^ 16 := by
  unfold PALU.aluResult
  split_ifs
  · exact Nat.mod_lt _ (by norm_num)
  · exact Nat.mod_lt _ (by norm_num)
  · exact Nat.xor_lt_two_pow h1 h2
  · exact Nat.or_lt_two_pow h1 h2
  · exact Nat.and_lt_two_pow _ h2
  · norm_num

theorem PALU3.aluResultBound3 {S : PALU3.State} (h1 : S.in1 < 2 ^ 16)
    (h2 : S.in2 < 2 ^ 16) : PALU3.aluResult S < 2 ^ 16 := by
  unfold PALU3.aluResult
  split_ifs
  · exact Nat.mod_lt _ (by norm_num)
  · exact Nat.mod_lt _ (by norm_num)
  · exact Nat.xor_lt_two_pow h1 h2
  · exact Nat.or_lt_two_pow h1 h2
  · exact Nat.and_lt_two_pow _ h2
  · norm_num

theorem PCount.aluResultBound8 (S : PCount.State) : PCount.aluResult S < 2 ^ 8 := by
  unfold PCount.aluResult
  split_ifs
  · exact Nat.mod_lt _ (by norm_num)
  · exact Nat.mod_lt _ (by norm_num)
  · exact Nat.mod_lt _ (by norm_num)
  · norm_num

/-! ### Concrete states used by witnesses and counterexamples -/

/-- A state of `pipelined-alu.py` with a taken branch in execute:
`x_ctrl_branch` is set and the ALU computes the branch target `5`. -/
def C1S : PALU.State :=
  { pc := 0, d_inst := 0, d_pc := 0, x_rd := 0, x_ctrl_alu_op := 1,
    x_ctrl_branch := true, x_ctrl_write := false, x_alu_in1 := 5,
    x_alu_in2 := 0, rf := fun _ => 0 }

/-- A state of `pipelined-alu.py` with `ADD r1 r2 r1` in decode while the
in-flight execute-stage instruction writes `r2` (`x_rd = 2`). -/
def C2SA : PALU.State :=
  { pc := 0, d_inst := 0x1112, d_pc := 0, x_rd := 2, x_ctrl_alu_op := 1,
    x_ctrl_branch := false, x_ctrl_write := true, x_alu_in1 := 3,
    x_alu_in2 := 4, rf := fun _ => 0 }

/-- A state of `pipelined-alu-3stg.py` where both in-flight producers
target register 2. -/
def C2SB : PALU3.State :=
  { in1 := 1, in2 := 1, out := 9, c_addr_1 := 2, c_addr_2 := 2,
    op_1 := 0, write_1 := true, write_2 := true, rf := fun _ => 0 }

/-- A state of `pipelined-alu-3stg.py` where only the writeback-stage
producer targets register 2. -/
def C2SC : PALU3.State :=
  { in1 := 1, in2 := 1, out := 7, c_addr_1 := 5, c_addr_2 := 2,
    op_1 := 0, write_1 := true, write_2 := true, rf := fun _ => 0 }

/-! ### Claim C1 -/

/-- Claim C1, as stated, is false: in `pipelined-alu.py` the `stall`
branch of the `pc.next` conditional assignment precedes the
`branch_taken` branch, so when both are asserted the pc holds its
current value instead of taking the branch target.  Here the branch
target is `5` but the pc stays at `0`. -/
theorem C1_counterexample :
    PALU.branchTaken C1S = true ∧
    PALU.branchTarget C1S = 5 ∧
    (PALU.step (fun _ => 0) C1S true).pc ≠ PALU.branchTarget C1S ∧
    (PALU.step (fun _ => 0) C1S true).pc = C1S.pc := by
  refine ⟨rfl, rfl, by decide, rfl⟩

/-- Claim C1 (amended): when the stall input and the branch-taken
condition are both asserted in the same cycle, stall takes priority over
squash for the program counter: the pc's next value is the held current
pc, not the branch target.  The fetch slot is still squashed to a NOP. -/
theorem C1_stall_over_squash (imem : Nat → Nat) (S : PALU.State)
    (h : PALU.branchTaken S = true) :
    (PALU.step imem S true).pc = S.pc ∧
    (PALU.step imem S true).d_inst = 0x1000 := by
  have hb : S.x_ctrl_branch = true := h
  exact ⟨rfl, by simp [PALU.step, PALU.branchTaken, hb]⟩

/-- Witness for C1's amended theorem at the concrete state `C1S`. -/
theorem C1_stall_over_squash_w :
    (PALU.step (fun _ => 0) C1S true).pc = C1S.pc ∧
    (PALU.step (fun _ => 0) C1S true).d_inst = 0x1000 :=
  C1_stall_over_squash (fun _ => 0) C1S rfl

/-! ### Claim C2 -/

/-- Claim C2: forwarding.  In `pipelined-alu.py`, a non-branch decode
instruction whose source register equals the in-flight destination
`x_rd` of a writing producer (and is not register 0) stages the
producer's ALU result, not the register file value, into the ALU input
register.  In `pipelined-alu-3stg.py` a source matching the
execute-stage destination `c_addr_1` receives `alu_result`, a source
matching only the writeback-stage destination `c_addr_2` receives
`out`, and when both producers target the same register the
execute-stage (most recently issued) producer wins. -/
theorem C2_forwarding :
    (∀ imem S st, PALU.ctrl_branch st S = false → S.x_ctrl_write = true →
      S.x_rd = PALU.inst_a st S → PALU.inst_a st S ≠ 0 →
      (PALU.step imem S st).x_alu_in1 = PALU.aluResult S) ∧
    (∀ imem S st, PALU.ctrl_branch st S = false → S.x_ctrl_write = true →
      S.x_rd = PALU.inst_b st S → PALU.inst_b st S ≠ 0 →
      (PALU.step imem S st).x_alu_in2 = PALU.aluResult S) ∧
    (∀ S inst, S.write_1 = true → S.c_addr_1 = slc inst 0 4 →
      (PALU3.step S false inst).in1 = PALU3.aluResult S) ∧
    (∀ S inst, S.write_1 = true → S.c_addr_1 = slc inst 4 8 →
      (PALU3.step S false inst).in2 = PALU3.aluResult S) ∧
    (∀ S inst, S.write_2 = true → S.c_addr_1 ≠ slc inst 0 4 →
      S.c_addr_2 = slc inst 0 4 → (PALU3.step S false inst).in1 = S.out) ∧
    (∀ S inst, S.write_2 = true → S.c_addr_1 ≠ slc inst 4 8 →
      S.c_addr_2 = slc inst 4 8 → (PALU3.step S false inst).in2 = S.out) ∧
    (∀ S inst, S.write_1 = true → S.write_2 = true →
      S.c_addr_1 = slc inst 0 4 → S.c_addr_2 = slc inst 0 4 →
      (PALU3.step S false inst).in1 = PALU3.aluResult S) := by
  refine ⟨?_, ?_, ?_, ?_, ?_, ?_, ?_⟩
  · intro imem S st hb _ ha hz
    have hz2 : S.x_rd ≠ 0 := ha ▸ hz
    simp [PALU.step, hb, ← ha, hz2]
  · intro imem S st hb _ ha hz
    have hz2 : S.x_rd ≠ 0 := ha ▸ hz
    simp [PALU.step, hb, ← ha, hz2]
  · intro S inst _ ha
    simp [PALU3.step, ha]
  · intro S inst _ ha
    simp [PALU3.step, ha]
  · intro S inst _ h1 h2
    simp [PALU3.step, h1, h2]
  · intro S inst _ h1 h2
    simp [PALU3.step, h1, h2]
  · intro S inst _ _ ha _
    simp [PALU3.step, ha]

/-- Witness for C2 at concrete states: `ADD r1 r2 r1` in decode with a
producer of `r2` in execute (2-stage design); both-producer priority and
writeback forwarding (3-stage design). -/
theorem C2_forwarding_w :
    (PALU.step (fun _ => 0) C2SA false).x_alu_in1 = PALU.aluResult C2SA ∧
    (PALU3.step C2SB false 0x0112).in1 = PALU3.aluResult C2SB ∧
    (PALU3.step C2SC false 0x0112).in1 = C2SC.out :=
  ⟨C2_forwarding.1 (fun _ => 0) C2SA false rfl rfl rfl (by decide),
   C2_forwarding.2.2.2.2.2.2 C2SB 0x0112 rfl rfl rfl rfl,
   C2_forwarding.2.2.2.2.1 C2SC 0x0112 rfl (by decide) rfl⟩

/-! ### Facts about stalled and bubbled cycles of `pipelined-alu.py` -/

/-- A register-file write never targets address 0: `reg_write_enable`
requires `x_rd != 0`. -/
theorem PALU.step_rf_zero (imem : Nat → Nat) (S : PALU.State) (st : Bool) :
    (PALU.step imem S st).rf 0 = S.rf 0 := by
  by_cases hw : PALU.reg_write_enable S = true
  · have hrd : S.x_rd ≠ 0 := by
      have h := hw
      unfold PALU.reg_write_enable at h
      simp only [Bool.and_eq_true, decide_eq_true_eq] at h
      exact h.2
    simp [PALU.step, hw, Function.update_apply, Ne.symm hrd]
  · simp [PALU.step, hw]

/-- If the write enable is low, the register file does not change. -/
theorem PALU.step_no_write (imem : Nat → Nat) {S : PALU.State} (st : Bool)
    (h : PALU.reg_write_enable S = false) :
    (PALU.step imem S st).rf = S.rf := by
  simp [PALU.step, h]

/-- A stalled decode slot carries destination register 0. -/
theorem PALU.step_stall_x_rd (imem : Nat → Nat) (S : PALU.State) :
    (PALU.step imem S true).x_rd = 0 := by
  simp [PALU.step, PALU.inst_c, PALU.nop]

/-- A stalled decode slot does not branch. -/
theorem PALU.step_stall_branch (imem : Nat → Nat) (S : PALU.State) :
    (PALU.step imem S true).x_ctrl_branch = false := by
  simp [PALU.step, PALU.ctrl_branch, PALU.inst_op, PALU.nop]

/-- A stalled decode slot carries the ADD opcode (the bubble is
`ADD r0 r0 r0`). -/
theorem PALU.step_stall_alu_op (imem : Nat → Nat) (S : PALU.State) :
    (PALU.step imem S true).x_ctrl_alu_op = 1 := by
  simp [PALU.step, PALU.ctrl_alu_op, PALU.inst_op, PALU.nop]

/-- A stalled decode slot has `ctrl_write` high (the bubble is an ADD);
its write is suppressed by `x_rd = 0`, not by `ctrl_write`. -/
theorem PALU.step_stall_write (imem : Nat → Nat) (S : PALU.State) :
    (PALU.step imem S true).x_ctrl_write = true := by
  simp [PALU.step, PALU.ctrl_write, PALU.inst_op, PALU.nop]

/-- A stalled decode slot stages `rf[0]` into both ALU inputs. -/
theorem PALU.step_stall_in1 (imem : Nat → Nat) (S : PALU.State) :
    (PALU.step imem S true).x_alu_in1 = S.rf 0 := by
  simp [PALU.step, PALU.ctrl_branch, PALU.inst_op, PALU.inst_a, PALU.nop]

/-- A stalled decode slot stages `rf[0]` into both ALU inputs. -/
theorem PALU.step_stall_in2 (imem : Nat → Nat) (S : PALU.State) :
    (PALU.step imem S true).x_alu_in2 = S.rf 0 := by
  simp [PALU.step, PALU.ctrl_branch, PALU.inst_op, PALU.inst_b, PALU.nop]

/-- After one stalled cycle from a state with no pending branch, the
state is a fixed point of further stalled cycles. -/
theorem PALU.stall_fixed (imem : Nat → Nat) (S : PALU.State)
    (hb : S.x_ctrl_branch = false) :
    PALU.step imem (PALU.step imem S true) true = PALU.step imem S true := by
  have hrd := PALU.step_stall_x_rd imem S
  have hw : PALU.reg_write_enable (PALU.step imem S true) = false := by
    simp [PALU.reg_write_enable, hrd]
  have hcb : PALU.ctrl_branch true S = false := by
    simp [PALU.ctrl_branch, PALU.inst_op, PALU.nop]
  apply PALU.State.ext
  · rfl
  · simp [PALU.step, PALU.branchTaken, hcb, hb]
  · rfl
  · rw [PALU.step_stall_x_rd, hrd]
  · rw [PALU.step_stall_alu_op, PALU.step_stall_alu_op]
  · rw [PALU.step_stall_branch, PALU.step_stall_branch]
  · rw [PALU.step_stall_write, PALU.step_stall_write]
  · rw [PALU.step_stall_in1, PALU.step_stall_in1, PALU.step_rf_zero]
  · rw [PALU.step_stall_in2, PALU.step_stall_in2, PALU.step_rf_zero]
  · rw [PALU.step_no_write imem true hw]

/-! ### Claim C3 -/

/-- The (reachable) state of `pipelined-alu.py` just before the first
stalled cycle of the source simulation: the retiring `SUB r1 r1 r2`
occupies execute with `x_rd = 1`. -/
def C3S : PALU.State :=
  { pc := 11, d_inst := 0, d_pc := 10, x_rd := 1, x_ctrl_alu_op := 2,
    x_ctrl_branch := false, x_ctrl_write := true, x_alu_in1 := 3,
    x_alu_in2 := 2,
    rf := fun a => if a = 1 then 3 else if a = 2 then 2 else
      if a = 3 then 6 else 0 }

/-- Claim C3, as stated, is false: during the first stalled cycle the
in-flight execute-stage instruction still retires, so a register-file
write fires while `stall = 1` (here `rf[1]` changes from 3 to 1). -/
theorem C3_counterexample :
    (PALU.step (fun _ => 0) C3S true).pc = C3S.pc ∧
    (PALU.step (fun _ => 0) C3S true).rf 1 ≠ C3S.rf 1 :=
  ⟨rfl, by decide⟩

/-- Claim C3 (amended): while `stall = 1` is held, the program counter
is unchanged on every stalled cycle; from the second consecutive
stalled cycle on, no register-file write fires, and the state reached
after two stalled cycles is a fixed point of further stalled cycles
(only the first stalled cycle can retire the pre-stall in-flight
instruction and write the register file; the decode slot holds the
`ADD r0 r0 r0` bubble from then on). -/
theorem C3_stall_behavior (imem : Nat → Nat) (S : PALU.State) :
    (PALU.step imem S true).pc = S.pc ∧
    (PALU.step imem (PALU.step imem S true) true).rf
      = (PALU.step imem S true).rf ∧
    PALU.step imem (PALU.step imem (PALU.step imem S true) true) true
      = PALU.step imem (PALU.step imem S true) true := by
  refine ⟨rfl, ?_, ?_⟩
  · apply PALU.step_no_write
    simp [PALU.reg_write_enable, PALU.step_stall_x_rd]
  · exact PALU.stall_fixed imem _ (PALU.step_stall_branch imem S)

/-! ### Claim C4 -/

/-- The (reachable) state of `pipelined-alu.py` after cycle 4 of the
source simulation: `JUMP 0x7` resolves in execute (target `2 + 7 = 9`)
while the wrongly fetched `SUB r2 r1 r2` from fall-through address 3
sits in decode. -/
def C4S : PALU.State :=
  { pc := 4, d_inst := 0x2221, d_pc := 3, x_rd := 0, x_ctrl_alu_op := 1,
    x_ctrl_branch := true, x_ctrl_write := false, x_alu_in1 := 2,
    x_alu_in2 := 7, rf := fun _ => 0 }

/-- Claim C4: when a branch is taken in execute, the pc is overridden
to the branch target (in the unstalled case), the fetch slot is forced
to the NOP `0x1000`, and the wrongly fetched instruction in decode is
squashed to a bubble (`x_rd = 0`, no branch), so its writeback cycle
leaves the register file unchanged. -/
theorem C4_branch_squash (imem : Nat → Nat) (S : PALU.State)
    (h : PALU.branchTaken S = true) (st st2 : Bool) :
    (PALU.step imem S false).pc = PALU.branchTarget S ∧
    (PALU.step imem S st).d_inst = 0x1000 ∧
    (PALU.step imem S st).x_rd = 0 ∧
    (PALU.step imem S st).x_ctrl_branch = false ∧
    (PALU.step imem (PALU.step imem S st) st2).rf
      = (PALU.step imem S st).rf := by
  have hb : S.x_ctrl_branch = true := h
  have hrd : (PALU.step imem S st).x_rd = 0 := by
    simp [PALU.step, PALU.inst_c, PALU.nop, PALU.branchTaken, hb]
  refine ⟨?_, ?_, hrd, ?_, ?_⟩
  · simp [PALU.step, PALU.branchTaken, hb]
  · simp [PALU.step, PALU.branchTaken, hb]
  · simp [PALU.step, PALU.ctrl_branch, PALU.inst_op, PALU.nop,
      PALU.branchTaken, hb]
  · apply PALU.step_no_write
    simp [PALU.reg_write_enable, hrd]

/-- Witness for C4 at the concrete post-`JUMP` state `C4S`: the pc
becomes the branch target 9 and both younger slots are bubbled. -/
theorem C4_branch_squash_w :
    (PALU.step (fun _ => 0) C4S false).pc = PALU.branchTarget C4S ∧
    (PALU.step (fun _ => 0) C4S false).d_inst = 0x1000 ∧
    (PALU.step (fun _ => 0) C4S false).x_rd = 0 :=
  ⟨(C4_branch_squash (fun _ => 0) C4S rfl false false).1,
   (C4_branch_squash (fun _ => 0) C4S rfl false false).2.1,
   (C4_branch_squash (fun _ => 0) C4S rfl false false).2.2.1⟩

/-! ### Claim C5 -/

/-- A state of `pipelined-alu-3stg.py` whose execute-stage and
writeback-stage destinations are both register 0, with a pending
writeback (`write_2`) and `rf[0] = 7`. -/
def C5S : PALU3.State :=
  { in1 := 2, in2 := 3, out := 9, c_addr_1 := 0, c_addr_2 := 0,
    op_1 := 0, write_1 := true, write_2 := true, rf := fun _ => 7 }

/-- Claim C5, as stated, is false for the 3-stage design: it has no
zero-register convention.  With source index 0 and `c_addr_1 = 0`, the
staged operand is the in-flight forwarded ALU result (5), not the
register file value (7); and the pending write targeting address 0 is
not suppressed (`rf[0]` becomes 9). -/
theorem C5_counterexample :
    (PALU3.step C5S false 0).in1 = PALU3.aluResult C5S ∧
    (PALU3.step C5S false 0).in1 ≠ C5S.rf 0 ∧
    (PALU3.step C5S false 0).rf 0 ≠ C5S.rf 0 := by
  refine ⟨rfl, by decide, by decide⟩

/-- Claim C5 (amended): the zero-register convention holds in
`pipelined-alu.py` only.  There, a write never targets `rf[0]`
(`reg_write_enable` requires `x_rd != 0`), so `rf[0] = 0` is invariant,
and a source-register index of 0 never selects the forwarding path: a
non-branch instruction reading register 0 stages the hard-wired 0. -/
theorem C5_zero_register (imem : Nat → Nat) (S : PALU.State) (st : Bool)
    (h0 : S.rf 0 = 0) (ha : PALU.inst_a st S = 0) (hb : PALU.inst_b st S = 0)
    (hc : PALU.ctrl_branch st S = false) :
    (PALU.step imem S st).rf 0 = S.rf 0 ∧
    (PALU.step imem S st).x_alu_in1 = 0 ∧
    (PALU.step imem S st).x_alu_in2 = 0 := by
  refine ⟨PALU.step_rf_zero imem S st, ?_, ?_⟩
  · simp [PALU.step, hc, ha, h0]
  · simp [PALU.step, hc, hb, h0]

/-- A state of `pipelined-alu.py` with the NOP `ADD r0 r0 r0` in decode
(both sources are register 0) and a producer of `r3` in execute. -/
def C5W : PALU.State :=
  { pc := 0, d_inst := 0x1000, d_pc := 0, x_rd := 3, x_ctrl_alu_op := 1,
    x_ctrl_branch := false, x_ctrl_write := true, x_alu_in1 := 2,
    x_alu_in2 := 2, rf := fun _ => 0 }

/-- Witness for C5's amended theorem at the concrete state `C5W`. -/
theorem C5_zero_register_w :
    (PALU.step (fun _ => 0) C5W false).rf 0 = C5W.rf 0 ∧
    (PALU.step (fun _ => 0) C5W false).x_alu_in1 = 0 ∧
    (PALU.step (fun _ => 0) C5W false).x_alu_in2 = 0 :=
  C5_zero_register (fun _ => 0) C5W false rfl rfl rfl rfl

/-! ### Claim C6 -/

/-- An execute-stage state of `pipelined-alu.py` carrying the unmapped
ALU-op value 7. -/
def C6SA : PALU.State :=
  { pc := 0, d_inst := 0, d_pc := 0, x_rd := 1, x_ctrl_alu_op := 7,
    x_ctrl_branch := false, x_ctrl_write := false, x_alu_in1 := 5,
    x_alu_in2 := 9, rf := fun _ => 0 }

/-- A state of `pipelined-alu-3stg.py` carrying the unmapped ALU-op
value 9. -/
def C6SB : PALU3.State :=
  { in1 := 5, in2 := 9, out := 0, c_addr_1 := 0, c_addr_2 := 0,
    op_1 := 9, write_1 := false, write_2 := false, rf := fun _ => 0 }

/-- A state of `counter.py` whose decode slot holds a NOP (opcode 0,
unmapped in the `alu_result` dispatch). -/
def C6SC : PCount.State := { pc := 0, counter := 5, d_inst := 0, d_pc := 0 }

/-- Claim C6: for every control value not covered by the enumerated
`alu_result` dispatch, the mux output is the declared default 0, in all
three designs. -/
theorem C6_default :
    (∀ S : PALU.State,
      ¬(S.x_ctrl_alu_op = 1 ∨ S.x_ctrl_alu_op = 2 ∨ S.x_ctrl_alu_op = 3 ∨
        S.x_ctrl_alu_op = 4 ∨ S.x_ctrl_alu_op = 5) → PALU.aluResult S = 0) ∧
    (∀ S : PALU3.State,
      ¬(S.op_1 = 0 ∨ S.op_1 = 1 ∨ S.op_1 = 2 ∨ S.op_1 = 3 ∨ S.op_1 = 4) →
      PALU3.aluResult S = 0) ∧
    (∀ S : PCount.State,
      ¬(PCount.inst_op S = 1 ∨ PCount.inst_op S = 2 ∨ PCount.inst_op S = 3) →
      PCount.aluResult S = 0) := by
  refine ⟨?_, ?_, ?_⟩
  · intro S h
    push_neg at h
    obtain ⟨h1, h2, h3, h4, h5⟩ := h
    simp [PALU.aluResult, h1, h2, h3, h4, h5]
  · intro S h
    push_neg at h
    obtain ⟨h1, h2, h3, h4, h5⟩ := h
    simp [PALU3.aluResult, h1, h2, h3, h4, h5]
  · intro S h
    push_neg at h
    obtain ⟨h1, h2, h3⟩ := h
    simp [PCount.aluResult, h1, h2, h3]

/-- Witness for C6 at unmapped control values 7 (2-stage ALU), 9
(3-stage ALU) and 0 (counter). -/
theorem C6_default_w :
    PALU.aluResult C6SA = 0 ∧ PALU3.aluResult C6SB = 0 ∧
    PCount.aluResult C6SC = 0 :=
  ⟨C6_default.1 C6SA (by decide), C6_default.2.1 C6SB (by decide),
   C6_default.2.2 C6SC (by decide)⟩

/-! ### Claim C7 -/

/-- An all-zero state of `pipelined-alu.py`. -/
def C7SA : PALU.State :=
  { pc := 0, d_inst := 0, d_pc := 0, x_rd := 0, x_ctrl_alu_op := 0,
    x_ctrl_branch := false, x_ctrl_write := false, x_alu_in1 := 0,
    x_alu_in2 := 0, rf := fun _ => 0 }

/-- An all-zero state of `pipelined-alu-3stg.py`. -/
def C7SB : PALU3.State :=
  { in1 := 0, in2 := 0, out := 0, c_addr_1 := 0, c_addr_2 := 0,
    op_1 := 0, write_1 := false, write_2 := false, rf := fun _ => 0 }

/-- An all-zero state of `counter.py`. -/
def C7SC : PCount.State := { pc := 0, counter := 0, d_inst := 0, d_pc := 0 }

/-- Claim C7: width closure.  In each design, a step from a well-formed
state (with in-range instruction memory) yields a well-formed state —
every register stays strictly below `2 ^ width` — and the ALU result
wire is itself below `2 ^ width` (additions and subtractions wrap
modulo `2 ^ width`). -/
theorem C7_width_closure :
    (∀ imem (S : PALU.State) st, (∀ a, imem a < 2 ^ 16) → PALU.WF S →
      PALU.WF (PALU.step imem S st) ∧ PALU.aluResult S < 2 ^ 16) ∧
    (∀ (S : PALU3.State) st inst, PALU3.WF S →
      PALU3.WF (PALU3.step S st inst) ∧ PALU3.aluResult S < 2 ^ 16) ∧
    (∀ imem (S : PCount.State), (∀ a, imem a < 2 ^ 8) → PCount.WF S →
      PCount.WF (PCount.step imem S) ∧ PCount.aluResult S < 2 ^ 8) := by
  refine ⟨?_, ?_, ?_⟩
  · intro imem S st himem hS
    obtain ⟨h1, h2, h3, h4, h5, h6, h7, h8⟩ := hS
    have halu := PALU.aluResultBound h6 h7
    refine ⟨⟨?_, ?_, ?_, ?_, ?_, ?_, ?_, ?_⟩, halu⟩
    · simp only [PALU.step]
      split_ifs
      · exact h1
      · exact halu
      · exact Nat.mod_lt _ (by norm_num)
    · simp only [PALU.step]
      split_ifs
      · norm_num
      · exact himem S.pc
    · exact h1
    · simp only [PALU.step, PALU.inst_c]
      split_ifs
      · norm_num
      · exact slc_lt S.d_inst 8 12
    · simp only [PALU.step, PALU.ctrl_alu_op, PALU.inst_op]
      split_ifs <;> first | exact slc_lt S.d_inst 12 16 | norm_num
    · simp only [PALU.step]
      split_ifs
      · exact h3
      · exact halu
      · exact h8 _
    · simp only [PALU.step, PALU.inst_imm]
      split_ifs
      · exact lt_trans (Nat.mod_lt _ (by norm_num)) (by norm_num)
      · exact halu
      · exact h8 _
    · intro a
      simp only [PALU.step]
      split_ifs
      · rw [Function.update_apply]
        split_ifs
        · exact halu
        · exact h8 a
      · exact h8 a
  · intro S st inst hS
    obtain ⟨h1, h2, h3, h4, h5, h6, h7⟩ := hS
    have halu := PALU3.aluResultBound3 h1 h2
    refine ⟨⟨?_, ?_, halu, ?_, h4, slc_lt inst 12 16, ?_⟩, halu⟩
    · simp only [PALU3.step]
      split_ifs
      · norm_num
      · exact halu
      · exact h3
      · exact h7 _
    · simp only [PALU3.step]
      split_ifs
      · norm_num
      · exact halu
      · exact h3
      · exact h7 _
    · simp only [PALU3.step]
      split_ifs
      · norm_num
      · exact slc_lt inst 8 12
    · intro a
      simp only [PALU3.step]
      split_ifs
      · rw [Function.update_apply]
        split_ifs
        · exact h3
        · exact h7 a
      · exact h7 a
  · intro imem S himem hS
    obtain ⟨h1, h2, h3, h4⟩ := hS
    have halu := PCount.aluResultBound8 S
    refine ⟨⟨?_, ?_, ?_, h1⟩, halu⟩
    · simp only [PCount.step, PCount.branch_target]
      split_ifs
      · exact halu
      · exact Nat.mod_lt _ (by norm_num)
    · simp only [PCount.step]
      split_ifs
      · exact halu
      · exact h2
    · simp only [PCount.step]
      split_ifs
      · norm_num
      · exact himem S.pc

/-- Witness for C7: one step of each design from its all-zero state
with all-zero memories. -/
theorem C7_width_closure_w :
    (PALU.WF (PALU.step (fun _ => 0) C7SA false) ∧
      PALU.aluResult C7SA < 2 ^ 16) ∧
    (PALU3.WF (PALU3.step C7SB false 0) ∧ PALU3.aluResult C7SB < 2 ^ 16) ∧
    (PCount.WF (PCount.step (fun _ => 0) C7SC) ∧
      PCount.aluResult C7SC < 2 ^ 8) :=
  ⟨C7_width_closure.1 (fun _ => 0) C7SA false (fun _ => by norm_num)
      ⟨by decide, by decide, by decide, by decide, by decide,
       by decide, by decide, fun _ => by norm_num [C7SA]⟩,
   C7_width_closure.2.1 C7SB false 0
      ⟨by decide, by decide, by decide, by decide, by decide,
       by decide, fun _ => by norm_num [C7SB]⟩,
   C7_width_closure.2.2 (fun _ => 0) C7SC (fun _ => by norm_num)
      ⟨by decide, by decide, by decide, by decide⟩⟩

/-! ### Claim C8 -/

/-- A state of `counter.py` with a NOP in decode and `counter = 5`. -/
def C8S : PCount.State := { pc := 3, counter := 5, d_inst := 0, d_pc := 2 }

/-- Claim C8: in `counter.py`, when the decoded opcode is NOP (0) or
JUMP (3), no branch of the `counter.next` conditional assignment is
taken and the counter self-holds across the cycle. -/
theorem C8_self_hold (imem : Nat → Nat) (S : PCount.State)
    (h : PCount.inst_op S = 0 ∨ PCount.inst_op S = 3) :
    (PCount.step imem S).counter = S.counter := by
  rcases h with h | h <;> simp [PCount.step, h]

/-- Witness for C8 at the concrete NOP state `C8S`. -/
theorem C8_self_hold_w :
    (PCount.step (fun _ => 0) C8S).counter = C8S.counter :=
  C8_self_hold (fun _ => 0) C8S (Or.inl rfl)

/-! ### Claim C9 -/

/-- Claim C9: determinism.  Each design's cycle is a pure function of
the pre-cycle state and that cycle's external inputs, so two runs from
equal initial states on equal input sequences produce identical traces
of committed states. -/
theorem C9_determinism :
    (∀ imem (S1 S2 : PALU.State) I1 I2, S1 = S2 → I1 = I2 →
      PALU.run imem S1 I1 = PALU.run imem S2 I2) ∧
    (∀ (S1 S2 : PALU3.State) I1 I2, S1 = S2 → I1 = I2 →
      PALU3.run S1 I1 = PALU3.run S2 I2) ∧
    (∀ imem (S1 S2 : PCount.State) n1 n2, S1 = S2 → n1 = n2 →
      PCount.run imem S1 n1 = PCount.run imem S2 n2) := by
  refine ⟨?_, ?_, ?_⟩
  · intro imem S1 S2 I1 I2 hS hI
    rw [hS, hI]
  · intro S1 S2 I1 I2 hS hI
    rw [hS, hI]
  · intro imem S1 S2 n1 n2 hS hn
    rw [hS, hn]

/-- Witness for C9: replaying two stalled cycles from `C7SA` twice. -/
theorem C9_determinism_w :
    PALU.run (fun _ => 0) C7SA [true, true]
      = PALU.run (fun _ => 0) C7SA [true, true] :=
  C9_determinism.1 (fun _ => 0) C7SA C7SA [true, true] [true, true] rfl rfl

/-! ### Claim C10 -/

/-- Claim C10: in the 3-stage design, stalling does not gate the opcode
pipeline register — `op_1` still loads `inst[12:16]` — and the stalled
slot is neutralized by zeroing `in1`, `in2`, `write_1` and `c_addr_1`;
consequently its ALU result the next cycle is 0 and, when the slot
reaches writeback two cycles later, no register-file write fires. -/
theorem C10_stall_op (S : PALU3.State) (inst : Nat) :
    (PALU3.step S true inst).op_1 = slc inst 12 16 ∧
    (PALU3.step S true inst).in1 = 0 ∧
    (PALU3.step S true inst).in2 = 0 ∧
    (PALU3.step S true inst).write_1 = false ∧
    (PALU3.step S true inst).c_addr_1 = 0 ∧
    PALU3.aluResult (PALU3.step S true inst) = 0 ∧
    ∀ i2 n2 i3 n3,
      (PALU3.step (PALU3.step (PALU3.step S true inst) i2 n2) i3 n3).rf
        = (PALU3.step (PALU3.step S true inst) i2 n2).rf := by
  refine ⟨rfl, rfl, rfl, rfl, rfl, ?_, ?_⟩
  · unfold PALU3.aluResult
    split_ifs <;> simp [PALU3.step]
  · intro i2 n2 i3 n3
    have hw2 : (PALU3.step (PALU3.step S true inst) i2 n2).write_2 = false := rfl
    simp [PALU3.step, hw2]
